import Mathlib

/-
Verification of the transaction-core engine (src/python/transactioncore.py)
against its natural-language specification.

Shallow embedding conventions:
- Python dict-based records become Lean structures with `Option` fields
  (a `none` field models a missing dict key).
- Addresses, token symbols, function names and transaction hashes are
  abstracted as natural numbers (their identity is all the code inspects).
- Numeric values (prices, gas prices, percentages, scores) are modelled on
  `ℚ`; decimal literals of the source denote the exact rationals they spell.
- External collaborators (chain client, price service, market monitor,
  relays) are oracles passed as explicit parameters; a call that may raise
  is an `Except Unit` value, a call that may return Python `None` is an
  `Option` value.
- `asyncio.gather(..., return_exceptions=True)` becomes a tuple of `Fetch`
  values, each either an exception or a delivered value.
-/

namespace TxCore

abbrev Addr := Nat
abbrev Symbol := Nat

/-- A candidate target transaction as a dict: each field is `none` when the
corresponding key is missing (`transactioncore.py` lines 466-478). -/
structure Tx where
  input : Option Addr
  toAddr : Option Addr  -- the tx dict key is "to", a Lean keyword
  value : Option ℚ
  gasPrice : Option ℚ
  profit : Option ℚ
deriving DecidableEq

/-- The `path` entry of decoded params: missing key (default `[]`), present
but not a Python list, or an actual list of token addresses
(`transactioncore.py` lines 489-490, 694-695). -/
inductive PathField where
  | absent
  | notList
  | list (l : List Addr)
deriving DecidableEq

/-- The `params` mapping of a decoded call; only the `path` entry is ever
inspected by the code under verification. -/
structure Params where
  path : PathField
deriving DecidableEq

/-- Result of `decode_transaction_input`: optional `function_name` and
optional `params` key (`transactioncore.py` lines 747-752). -/
structure DecodedTx where
  function_name : Option Nat
  params : Option Params
deriving DecidableEq

/-- The market-conditions dict returned by the market monitor; `none` models
a missing key, read through `.get` with the call site's default. -/
structure MarketConditions where
  high_volatility : Option Bool
  low_liquidity : Option Bool
  bullish_trend : Option Bool
deriving DecidableEq

/-- `_validate_transaction` (`transactioncore.py` lines 466-507).
`tx?` is `none` when the argument is not a dict; `dec` is the outcome of
the checksum-and-decode step (an `Except.error` models a raised exception,
caught by the enclosing `try`); `sym` is the token-symbol lookup outcome
(`Except.error` a raise, `Option.none` a falsy symbol). -/
def validate_transaction (tx? : Option Tx) (dec : Except Unit (Option DecodedTx))
    (sym : Except Unit (Option Symbol)) (minValue : ℚ) :
    Bool × Option DecodedTx × Option Symbol :=
  match tx? with
  | none => (false, none, none)
  | some tx =>
    if tx.input.isNone || tx.toAddr.isNone || tx.value.isNone || tx.gasPrice.isNone then
      (false, none, none)
    else
      match dec with
      | .error _ => (false, none, none)
      | .ok none => (false, none, none)
      | .ok (some d) =>
        match d.params with
        | none => (false, none, none)
        | some ps =>
          match ps.path with
          | .absent => (false, none, none)
          | .notList => (false, none, none)
          | .list l =>
            if l.length < 2 then (false, none, none)
            else
              match sym with
              | .error _ => (false, none, none)
              | .ok none => (false, none, none)
              | .ok (some s) =>
                if tx.value.getD 0 < minValue then (false, none, none)
                else (true, some d, some s)

/-- `simulate_transaction` (`transactioncore.py` lines 355-369): a read-only
`eth_call` against the pending block; any raised exception is caught and
converted to `false`, success yields `true`. `callResult` is the chain
client's outcome. -/
def simulate_transaction (callResult : Except Unit Unit) : Bool :=
  match callResult with
  | .ok _ => true
  | .error _ => false

/-- One entry of the `asyncio.gather(..., return_exceptions=True)` list in
`_validate_and_send_bundle` is failed when it is an exception object or a
falsy result (`transactioncore.py` line 631). -/
def simFailed (r : Except Unit Bool) : Bool :=
  match r with
  | .error _ => true
  | .ok b => !b

/-- `_validate_and_send_bundle` (`transactioncore.py` lines 623-634): gather
all member simulations; if any entry is an exception or falsy, return
`false` without submitting; otherwise return `send_bundle`'s result.
The second component records whether `send_bundle` was invoked. -/
def validate_and_send_bundle (sims : List (Except Unit Bool)) (sendResult : Bool) :
    Bool × Bool :=
  if sims.any simFailed then (false, false) else (sendResult, true)

/-- The composition actually run on a bundle: each member's simulation is
`simulate_transaction` of its chain-call outcome (which never raises, so the
gathered entries are plain booleans). -/
def validate_and_send_bundle_of_calls (calls : List (Except Unit Unit))
    (sendResult : Bool) : Bool × Bool :=
  validate_and_send_bundle (calls.map (fun c => Except.ok (simulate_transaction c))) sendResult

/-- The retry loop body of `execute_transaction` (`transactioncore.py` lines
263-281) over the list of per-attempt outcomes (`some h` a returned tx hash,
`none` a caught sign/submit failure). After every failed attempt the tx's
`gasPrice` (default 50) is compared against the configured ceiling and the
loop returns `None` immediately on a breach; an exhausted list also yields
`None`. -/
def execute_attempts (results : List (Option Nat)) (gasPrice? : Option ℚ)
    (ceiling : ℚ) : Option Nat :=
  match results with
  | [] => none
  | r :: rest =>
    match r with
    | some h => some h
    | none =>
      if gasPrice?.getD 50 > ceiling then none
      else execute_attempts rest gasPrice? ceiling

/-- `execute_transaction` (`transactioncore.py` lines 256-281): runs the
attempt loop for `maxRetries` attempts, attempt `i`'s outcome given by the
oracle `attempt i`. -/
def execute_transaction (attempt : Nat → Option Nat) (maxRetries : Nat)
    (gasPrice? : Option ℚ) (ceiling : ℚ) : Option Nat :=
  execute_attempts ((List.range maxRetries).map attempt) gasPrice? ceiling

/-- Outcome of one relay POST in `send_bundle`: transport errors are retried,
an application-level error response aborts that relay, a clean 2xx response
without an error field is a success (`transactioncore.py` lines 422-452). -/
inductive RelayOutcome where
  | transport
  | appError
  | success
deriving DecidableEq

/-- The per-relay retry loop of `send_bundle` over that relay's attempt
outcomes: success records the relay, an application error breaks without
recording, a transport error moves to the next attempt. -/
def tryBuilder (outcomes : List RelayOutcome) : Bool :=
  match outcomes with
  | [] => false
  | o :: rest =>
    match o with
    | .success => true
    | .appError => false
    | .transport => tryBuilder rest

/-- `send_bundle` (`transactioncore.py` lines 394-464): `signOk` is whether
signing all members (and reading the block number) succeeded — a raise there
is caught by the outer `try` and yields `false` with no relay contacted.
Each builder contributes its attempt-outcome list. The first component is
the returned boolean, the second the number of `refresh_nonce` invocations. -/
def send_bundle (signOk : Bool) (builders : List (List RelayOutcome)) : Bool × Nat :=
  if signOk then
    let successes := builders.filter tryBuilder
    if successes.isEmpty then (false, 0) else (true, 1)
  else (false, 0)

/-- Python `int()` applied to an exact `Decimal`: truncation toward zero. -/
def pyInt (q : ℚ) : ℤ :=
  if 0 ≤ q then ⌊q⌋ else ⌈q⌉

/-- `calculate_flashloan_amount` (`transactioncore.py` lines 339-353):
`tx.get("profit", 0)`; when positive, `int(Decimal(profit) * Decimal(pct) *
Decimal("1e18"))`, else 0. The `Decimal` arithmetic is exact, modelled on ℚ. -/
def calculate_flashloan_amount (profit? : Option ℚ) (pct : ℚ) : ℤ :=
  let estimated := profit?.getD 0
  if 0 < estimated then pyInt (estimated * pct * 10 ^ 18) else 0

/-- `prepare_flashloan_transaction` (`transactioncore.py` lines 371-392):
a non-positive amount short-circuits to `None`; otherwise the flashloan
function call is built (`build` models `build_transaction`'s outcome, whose
raise is caught and converted to `None`). -/
def prepare_flashloan_transaction (amount : ℤ) (build : Except Unit Nat) : Option Nat :=
  if amount ≤ 0 then none
  else
    match build with
    | .ok t => some t
    | .error _ => none

/-- `_prepare_flashloan` (`transactioncore.py` lines 614-621): computes the
flashloan amount from the target tx and short-circuits to `None` when it is
non-positive, else defers to `prepare_flashloan_transaction`. -/
def prepare_flashloan (profit? : Option ℚ) (pct : ℚ) (build : Except Unit Nat) :
    Option Nat :=
  let amt := calculate_flashloan_amount profit? pct
  if amt ≤ 0 then none
  else prepare_flashloan_transaction amt build

/-- How the environment resolves the router/build steps of
`_prepare_back_run_transaction` after the path has been reversed
(`transactioncore.py` lines 700-723): unknown `to` address, uninitialized
router contract, function name absent from the router ABI, a raise inside
`build_transaction` (caught, yielding `None`), or a successful build. -/
inductive RouterStep where
  | unknownRouter
  | uninitRouter
  | fnMissing
  | buildFail
  | builtOk
deriving DecidableEq

/-- `_prepare_back_run_transaction` (`transactioncore.py` lines 683-726).
Returns the prepared companion transaction's path (the function call is
built from `function_params`, whose `path` was overwritten with the
reversal) together with the post-call state of the caller's decoded dict:
`function_params` aliases `decoded_tx["params"]` whenever that key exists,
so the in-place `function_params["path"] = path[::-1]` at line 699 is
visible to the caller even when a later step returns `None`. When the
`params` key is missing, `dict.get`'s `{}` default is a fresh dict and the
caller's record is untouched (the empty path then fails the length check). -/
def prepare_back_run_transaction (decoded : DecodedTx) (step : RouterStep) :
    Option (List Addr) × DecodedTx :=
  match decoded.function_name with
  | none => (none, decoded)
  | some _ =>
    match decoded.params with
    | none => (none, decoded)
    | some ps =>
      match ps.path with
      | .absent => (none, decoded)
      | .notList => (none, decoded)
      | .list l =>
        if l.length < 2 then (none, decoded)
        else
          let decoded' : DecodedTx :=
            { decoded with params := some { ps with path := .list l.reverse } }
          match step with
          | .builtOk => (some l.reverse, decoded')
          | _ => (none, decoded')

/-- `_calculate_opportunity_score` (`transactioncore.py` lines 1097-1170):
a sum of five independent metric contributions, each a descending
`if/elif` band chain. Defaults at the `.get` sites: `bullish_trend` False,
`high_volatility` True, `low_liquidity` True. Float literals denote their
exact decimal values on ℚ. -/
def calculate_opportunity_score (price_change volatility : ℚ)
    (mc : MarketConditions) (current_price : ℚ) (historical_prices : List ℚ) : ℚ :=
  (if price_change > 5 then 40
   else if price_change > 3 then 30
   else if price_change > 1 then 20
   else if price_change > 1/2 then 10
   else 0)
  +
  (if historical_prices ≠ [] then
     (if current_price > (historical_prices.sum / (historical_prices.length : ℚ)) * (11/10) then 10
      else if current_price > (historical_prices.sum / (historical_prices.length : ℚ)) * (21/20) then 5
      else 0)
   else 0)
  +
  (if volatility < 1/50 then 20
   else if volatility < 1/20 then 15
   else if volatility < 2/25 then 10
   else 0)
  +
  ((if mc.bullish_trend.getD false then 10 else 0)
   + (if !(mc.high_volatility.getD true) then 5 else 0)
   + (if !(mc.low_liquidity.getD true) then 5 else 0))
  +
  (if historical_prices.length > 1 then
     (if ((historical_prices.getLast?.getD 0) / (historical_prices.head?.getD 0) - 1) * 100 > 0 then 20
      else if ((historical_prices.getLast?.getD 0) / (historical_prices.head?.getD 0) - 1) * 100 > -1 then 10
      else 0)
   else 0)

/-- Python `max` over a nonempty list (only reached on nonempty input). -/
def pyMax (l : List ℚ) : ℚ :=
  match l with
  | [] => 0
  | x :: xs => xs.foldl max x

/-- Python `min` over a nonempty list (only reached on nonempty input). -/
def pyMin (l : List ℚ) : ℚ :=
  match l with
  | [] => 0
  | x :: xs => xs.foldl min x

/-- The effective `_calculate_volatility_score` (the second definition,
`transactioncore.py` lines 1532-1586, which shadows the textually identical
first at 1172-1226). `stdFn` abstracts `np.std` (an irrational floating
point quantity); `np.mean` is `sum / length`. `current_price` is accepted
but never used by the body. Defaults at the `.get` sites are False. -/
def calculate_volatility_score (historical_prices : List ℚ) (_current_price : ℚ)
    (mc : MarketConditions) (stdFn : List ℚ → ℚ) : ℚ :=
  (if historical_prices.length > 1 then
     (if stdFn historical_prices / (historical_prices.sum / (historical_prices.length : ℚ)) > 1/10 then 40
      else if stdFn historical_prices / (historical_prices.sum / (historical_prices.length : ℚ)) > 2/25 then 30
      else if stdFn historical_prices / (historical_prices.sum / (historical_prices.length : ℚ)) > 1/20 then 20
      else if stdFn historical_prices / (historical_prices.sum / (historical_prices.length : ℚ)) > 3/100 then 10
      else 0)
   else 0)
  +
  (if historical_prices ≠ [] then
     (if (pyMax historical_prices - pyMin historical_prices) / (historical_prices.sum / (historical_prices.length : ℚ)) > 1/5 then 30
      else if (pyMax historical_prices - pyMin historical_prices) / (historical_prices.sum / (historical_prices.length : ℚ)) > 3/20 then 20
      else if (pyMax historical_prices - pyMin historical_prices) / (historical_prices.sum / (historical_prices.length : ℚ)) > 1/10 then 10
      else 0)
   else 0)
  +
  (if mc.high_volatility.getD false then 20 else 0)
  +
  (if mc.low_liquidity.getD false then 10 else 0)

/-- The effective `_calculate_risk_score` is the second definition
(`transactioncore.py` lines 1588-1597), which shadows the computing first
definition (1228-1281). Its body is a docstring and `pass`, so the
coroutine returns Python `None`. -/
def calculate_risk_score : Option (ℚ × MarketConditions) := none

/-- One gathered value of `asyncio.gather(..., return_exceptions=True)`:
either an exception object or the delivered value. -/
inductive Fetch (α : Type) where
  | exc
  | val (a : α)
deriving DecidableEq

/-- Whether a gathered entry is an exception object. -/
def Fetch.isExc {α : Type} : Fetch α → Bool
  | .exc => true
  | .val _ => false

/-- Observable outcome of a variant strategy entry point: an uncaught
exception propagated to the caller, a `false` return without invoking the
base strategy, or the base strategy's (`front_run`'s) result returned. -/
inductive StrategyResult where
  | raised
  | declined
  | ran (b : Bool)
deriving DecidableEq

/-- The effective `predictive_front_run` (second definition,
`transactioncore.py` lines 1350-1406, textually identical to the first at
926-982). Validation runs first (min value 0); the four external lookups
are gathered with `return_exceptions=True`; any exception entry, or a
`None` predicted or current price, returns `false`. A zero current price
then raises `ZeroDivisionError` at the `price_change` computation, and a
`None` market-conditions value raises `AttributeError` inside
`_calculate_opportunity_score` — both uncaught, since the `try` block ends
at the gather. A `None` historical-prices value is merely falsy: volatility
becomes 0 and the score is computed from the remaining data. -/
def predictive_front_run (tx? : Option Tx) (dec : Except Unit (Option DecodedTx))
    (sym : Except Unit (Option Symbol))
    (predF priceF : Fetch (Option ℚ)) (mcF : Fetch (Option MarketConditions))
    (histF : Fetch (Option (List ℚ))) (stdFn : List ℚ → ℚ)
    (threshold : ℚ) (frontRunResult : Bool) : StrategyResult :=
  let v := validate_transaction tx? dec sym 0
  if !v.1 then .declined
  else if predF.isExc || priceF.isExc || mcF.isExc || histF.isExc then .declined
  else
    match predF, priceF, mcF, histF with
    | .val pred?, .val price?, .val mc?, .val hist? =>
      match pred?, price? with
      | some pred, some price =>
        if price = 0 then .raised
        else
          let price_change := (pred / price - 1) * 100
          let hist := hist?.getD []
          let volatility := if hist ≠ [] then stdFn hist / (hist.sum / (hist.length : ℚ)) else 0
          match mc? with
          | none => .raised
          | some mc =>
            let score := calculate_opportunity_score price_change volatility mc price hist
            if score ≥ threshold then .ran frontRunResult else .declined
      | _, _ => .declined
    | _, _, _, _ => .declined

/-- The effective `volatility_front_run` (second definition,
`transactioncore.py` lines 1408-1451, textually identical to the first at
984-1027). Validation runs first; the three lookups are gathered and only
exception entries are screened — absent (`None`) values pass through. A
`None` market-conditions value then raises `AttributeError` inside
`_calculate_volatility_score`; a `None` or empty historical-prices value
raises (`min` of `None`/`[]`) in the analysis debug log at lines
1438-1444; a `None` current price is used only in that log's plain
formatting and flows on to the threshold decision. -/
def volatility_front_run (tx? : Option Tx) (dec : Except Unit (Option DecodedTx))
    (sym : Except Unit (Option Symbol))
    (mcF : Fetch (Option MarketConditions)) (priceF : Fetch (Option ℚ))
    (histF : Fetch (Option (List ℚ))) (stdFn : List ℚ → ℚ)
    (threshold : ℚ) (frontRunResult : Bool) : StrategyResult :=
  let v := validate_transaction tx? dec sym 0
  if !v.1 then .declined
  else if mcF.isExc || priceF.isExc || histF.isExc then .declined
  else
    match mcF, priceF, histF with
    | .val mc?, .val price?, .val hist? =>
      match mc? with
      | none => .raised
      | some mc =>
        let score := calculate_volatility_score (hist?.getD []) (price?.getD 0) mc stdFn
        match hist? with
        | none => .raised
        | some [] => .raised
        | some _ =>
          if score ≥ threshold then .ran frontRunResult else .declined
    | _, _, _ => .declined

/-- The effective `aggressive_front_run` (second definition,
`transactioncore.py` lines 1328-1348, shadowing the first at 900-924).
After validation (against the configured minimum value) it awaits the 24h
price change (`priceChange`; a raise there propagates — the method has no
`try`) and then tuple-unpacks the result of the effective
`_calculate_risk_score`, which is `None`: that unpacking raises an uncaught
`TypeError`. The comparison branch below the match is therefore dead code. -/
def aggressive_front_run (tx? : Option Tx) (dec : Except Unit (Option DecodedTx))
    (sym : Except Unit (Option Symbol)) (minValue : ℚ)
    (priceChange : Except Unit ℚ) (threshold : ℚ) (frontRunResult : Bool) :
    StrategyResult :=
  let v := validate_transaction tx? dec sym minValue
  if !v.1 then .declined
  else
    match priceChange with
    | .error _ => .raised
    | .ok _ =>
      match calculate_risk_score with
      | none => .raised
      | some (risk, _) =>
        if risk ≥ threshold then .ran frontRunResult else .declined

/-- Claim C4: any input that is not a well-formed record, or is missing one
of the fields input/to/value/gasPrice, or whose calldata fails to decode,
or whose decoded params lack a path of length at least 2, or whose first
path token has no resolvable symbol, or whose value is below the minimum,
makes `_validate_transaction` return exactly `(False, None, None)`, and no
exception escapes (raises inside the guarded block are the `Except.error`
oracle outcomes, all mapped to the same rejection). -/
theorem claim_c4_validate_rejections (tx? : Option Tx)
    (dec : Except Unit (Option DecodedTx)) (sym : Except Unit (Option Symbol))
    (minValue : ℚ)
    (h : tx? = none
      ∨ (∃ tx, tx? = some tx ∧
          (tx.input = none ∨ tx.toAddr = none ∨ tx.value = none ∨ tx.gasPrice = none))
      ∨ dec = .error () ∨ dec = .ok none
      ∨ (∃ d, dec = .ok (some d) ∧ d.params = none)
      ∨ (∃ d ps, dec = .ok (some d) ∧ d.params = some ps ∧
          (ps.path = .absent ∨ ps.path = .notList ∨
            ∃ l, ps.path = .list l ∧ l.length < 2))
      ∨ sym = .error () ∨ sym = .ok none
      ∨ (∃ tx, tx? = some tx ∧ tx.value.getD 0 < minValue)) :
    validate_transaction tx? dec sym minValue = (false, none, none) := by
  rcases h with rfl | ⟨tx, rfl, hf⟩ | rfl | rfl | ⟨d, rfl, hd⟩ |
    ⟨d, ps, rfl, hd, hpath⟩ | rfl | rfl | ⟨tx, rfl, hv⟩
  · rfl
  · have hcond : (tx.input.isNone || tx.toAddr.isNone || tx.value.isNone
        || tx.gasPrice.isNone) = true := by
      rcases hf with h | h | h | h <;> simp [h]
    simp [validate_transaction, hcond]
  · cases tx? with
    | none => rfl
    | some tx =>
      simp only [validate_transaction]
      split <;> rfl
  · cases tx? with
    | none => rfl
    | some tx =>
      simp only [validate_transaction]
      split <;> rfl
  · cases tx? with
    | none => rfl
    | some tx =>
      simp only [validate_transaction]
      split
      · rfl
      · simp [hd]
  · cases tx? with
    | none => rfl
    | some tx =>
      simp only [validate_transaction]
      split
      · rfl
      · rcases hpath with hp | hp | ⟨l, hp, hl⟩
        · simp [hd, hp]
        · simp [hd, hp]
        · simp [hd, hp, hl]
  · cases tx? with
    | none => rfl
    | some tx =>
      simp only [validate_transaction]
      split
      · rfl
      · cases dec with
        | error e => rfl
        | ok o =>
          cases o with
          | none => rfl
          | some d =>
            cases hp : d.params with
            | none => simp [hp]
            | some ps =>
              cases hq : ps.path with
              | absent => simp [hp, hq]
              | notList => simp [hp, hq]
              | list l =>
                by_cases hl : l.length < 2
                · simp [hp, hq, hl]
                · simp [hp, hq, hl]
  · cases tx? with
    | none => rfl
    | some tx =>
      simp only [validate_transaction]
      split
      · rfl
      · cases dec with
        | error e => rfl
        | ok o =>
          cases o with
          | none => rfl
          | some d =>
            cases hp : d.params with
            | none => simp [hp]
            | some ps =>
              cases hq : ps.path with
              | absent => simp [hp, hq]
              | notList => simp [hp, hq]
              | list l =>
                by_cases hl : l.length < 2
                · simp [hp, hq, hl]
                · simp [hp, hq, hl]
  · simp only [validate_transaction]
    split
    · rfl
    · cases dec with
      | error e => rfl
      | ok o =>
        cases o with
        | none => rfl
        | some d =>
          cases hp : d.params with
          | none => simp [hp]
          | some ps =>
            cases hq : ps.path with
            | absent => simp [hp, hq]
            | notList => simp [hp, hq]
            | list l =>
              by_cases hl : l.length < 2
              · simp [hp, hq, hl]
              · cases sym with
                | error e => simp [hp, hq, hl]
                | ok so =>
                  cases so with
                  | none => simp [hp, hq, hl]
                  | some s => simp [hp, hq, hl, hv]

/-- Witness for C4 at a concrete rejected input (not a dict at all). -/
theorem claim_c4_witness :
    validate_transaction (none : Option Tx) (Except.ok none) (Except.ok none) 0
      = (false, none, none) :=
  claim_c4_validate_rejections none (Except.ok none) (Except.ok none) 0 (Or.inl rfl)

/-- Claim C1: if any member's simulation entry is an exception or `false`,
`_validate_and_send_bundle` returns `false` and `send_bundle` is never
invoked; `send_bundle` is invoked exactly when every member simulated
successfully; and a bundle member whose chain call raises (so its
`simulate_transaction` returns `false`) is likewise never submitted. -/
theorem claim_c1_bundle_simulation_gate (sims : List (Except Unit Bool))
    (sendResult : Bool) (calls : List (Except Unit Unit)) :
    ((∃ s ∈ sims, s = Except.error () ∨ s = Except.ok false) →
      validate_and_send_bundle sims sendResult = (false, false))
    ∧ ((validate_and_send_bundle sims sendResult).2 = true ↔
        ∀ s ∈ sims, s = Except.ok true)
    ∧ ((∃ c ∈ calls, c = Except.error ()) →
      validate_and_send_bundle_of_calls calls sendResult = (false, false)) := by
  refine ⟨?_, ⟨?_, ?_⟩, ?_⟩
  · rintro ⟨s, hs, h | h⟩ <;>
    · have hany : sims.any simFailed = true :=
        List.any_eq_true.mpr ⟨s, hs, by simp [simFailed, h]⟩
      simp [validate_and_send_bundle, hany]
  · intro h2 s hs
    by_cases hany : sims.any simFailed = true
    · simp [validate_and_send_bundle, hany] at h2
    · have hall := List.any_eq_false.mp (Bool.eq_false_iff.mpr hany)
      have hf := hall s hs
      cases s with
      | error e => simp [simFailed] at hf
      | ok b =>
        cases b with
        | false => simp [simFailed] at hf
        | true => rfl
  · intro hall
    have hany : sims.any simFailed = false := by
      rw [List.any_eq_false]
      intro s hs
      rw [hall s hs]
      simp [simFailed]
    simp [validate_and_send_bundle, hany]
  · rintro ⟨c, hc, rfl⟩
    have hmem : (Except.ok (simulate_transaction (Except.error ())) : Except Unit Bool) ∈
        calls.map (fun c => (Except.ok (simulate_transaction c) : Except Unit Bool)) :=
      List.mem_map_of_mem _ hc
    have hany : (calls.map
        (fun c => (Except.ok (simulate_transaction c) : Except Unit Bool))).any simFailed
        = true :=
      List.any_eq_true.mpr ⟨_, hmem, by simp [simulate_transaction, simFailed]⟩
    simp [validate_and_send_bundle_of_calls, validate_and_send_bundle, hany]

/-- Witness for C1 at a concrete bundle with one failed simulation. -/
theorem claim_c1_witness :
    validate_and_send_bundle [Except.ok false] true = (false, false) :=
  (claim_c1_bundle_simulation_gate [Except.ok false] true []).1
    ⟨Except.ok false, by simp, Or.inr rfl⟩

/-- Claim C3: when the transaction's gas price exceeds the configured
ceiling, `execute_transaction` returns `None` right after the first failed
attempt, even with retries remaining; and exhausting every attempt also
yields `None` rather than an exception. -/
theorem claim_c3_gas_ceiling_hard_stop (attempt : Nat → Option Nat)
    (maxRetries : Nat) (gasPrice? : Option ℚ) (ceiling : ℚ) :
    (gasPrice?.getD 50 > ceiling → attempt 0 = none →
      execute_transaction attempt maxRetries gasPrice? ceiling = none)
    ∧ ((∀ i, attempt i = none) →
      execute_transaction attempt maxRetries gasPrice? ceiling = none) := by
  constructor
  · intro hgas h0
    cases maxRetries with
    | zero => rfl
    | succ k =>
      unfold execute_transaction
      rw [List.range_succ_eq_map]
      simp only [List.map_cons, h0]
      unfold execute_attempts
      simp [hgas]
  · intro hall
    have aux : ∀ results : List (Option Nat), (∀ r ∈ results, r = none) →
        execute_attempts results gasPrice? ceiling = none := by
      intro results
      induction results with
      | nil => intro _; rfl
      | cons r rest ih =>
        intro h
        have hr := h r (by simp)
        subst hr
        simp only [execute_attempts]
        split
        · rfl
        · exact ih fun x hx => h x (by simp [hx])
    refine aux _ ?_
    intro r hr
    rcases List.mem_map.mp hr with ⟨i, _, rfl⟩
    exact hall i

/-- Witness for C3: gas price 100 over ceiling 50, three attempts allowed,
every attempt failing — no result is produced. -/
theorem claim_c3_witness :
    execute_transaction (fun _ => none) 3 (some 100) 50 = none :=
  (claim_c3_gas_ceiling_hard_stop (fun _ => none) 3 (some 100) 50).1
    (by norm_num) rfl

/-- Claim C5: `send_bundle` returns `true` exactly when at least one relay
accepts the bundle, and on that success `refresh_nonce` is invoked exactly
once; with no accepting relay (or a signing failure before any relay is
contacted) it returns `false` and `refresh_nonce` is not invoked. -/
theorem claim_c5_send_bundle_semantics (builders : List (List RelayOutcome)) :
    send_bundle true builders
      = (builders.any tryBuilder, if builders.any tryBuilder then 1 else 0)
    ∧ send_bundle false builders = (false, 0) := by
  constructor
  · induction builders with
    | nil => rfl
    | cons b bs ih =>
      by_cases hb : tryBuilder b = true
      · simp [send_bundle, List.filter_cons, hb]
      · simp only [send_bundle, List.filter_cons, hb] at ih ⊢
        simpa [hb] using ih
  · rfl

/-- Claim C6: for a decoded call whose params contain a path of length at
least 2, the prepared back-run companion transaction uses exactly the
reverse of the original path; reversal preserves length and element
identity, reversing a length-2 path swaps the two tokens exactly once,
and reversing twice yields the original path. -/
theorem claim_c6_back_run_path_reversal (d : DecodedTx) (ps : Params)
    (l : List Addr) (fn : Nat)
    (hfn : d.function_name = some fn) (hps : d.params = some ps)
    (hpath : ps.path = PathField.list l) (hlen : 2 ≤ l.length) :
    (prepare_back_run_transaction d RouterStep.builtOk).1 = some l.reverse
    ∧ l.reverse.length = l.length
    ∧ (∀ x : Addr, x ∈ l.reverse ↔ x ∈ l)
    ∧ (∀ a b : Addr, l = [a, b] → l.reverse = [b, a])
    ∧ l.reverse.reverse = l := by
  have hlt : ¬ l.length < 2 := by omega
  refine ⟨?_, List.length_reverse l, fun x => List.mem_reverse, ?_, List.reverse_reverse l⟩
  · simp [prepare_back_run_transaction, hfn, hps, hpath, hlt]
  · rintro a b rfl
    rfl

/-- Witness for C6 at a concrete two-token path. -/
theorem claim_c6_witness :
    (prepare_back_run_transaction ⟨some 7, some ⟨PathField.list [1, 2]⟩⟩
      RouterStep.builtOk).1 = some (([1, 2] : List Addr).reverse) :=
  (claim_c6_back_run_path_reversal ⟨some 7, some ⟨PathField.list [1, 2]⟩⟩
    ⟨PathField.list [1, 2]⟩ [1, 2] 7 rfl rfl rfl (by norm_num)).1

/-- Claim C10: `_prepare_back_run_transaction` mutates the caller's decoded
params in place: whatever the router/build step outcome, after the call the
decoded dict's path holds the reversal, so a second preparation from the
same decoded dict operates on the already-reversed path (its companion
transaction's path is the original order again). -/
theorem claim_c10_back_run_mutation (d : DecodedTx) (ps : Params)
    (l : List Addr) (fn : Nat) (step : RouterStep)
    (hfn : d.function_name = some fn) (hps : d.params = some ps)
    (hpath : ps.path = PathField.list l) (hlen : 2 ≤ l.length) :
    (prepare_back_run_transaction d step).2.params
      = some { ps with path := PathField.list l.reverse }
    ∧ (prepare_back_run_transaction (prepare_back_run_transaction d step).2
        RouterStep.builtOk).1 = some l := by
  have hlt : ¬ l.length < 2 := by omega
  have h2 : (prepare_back_run_transaction d step).2
      = { d with params := some { ps with path := PathField.list l.reverse } } := by
    cases step <;> simp [prepare_back_run_transaction, hfn, hps, hpath, hlt]
  constructor
  · rw [h2]
  · rw [h2]
    have hlt' : ¬ l.reverse.length < 2 := by
      rw [List.length_reverse]
      exact hlt
    simp [prepare_back_run_transaction, hfn, hlt, hlt', List.reverse_reverse]

/-- Witness for C10: after a failed preparation (unknown router) the
caller's decoded params hold the reversed path. -/
theorem claim_c10_witness :
    (prepare_back_run_transaction ⟨some 7, some ⟨PathField.list [1, 2]⟩⟩
      RouterStep.unknownRouter).2.params
      = some ⟨PathField.list (([1, 2] : List Addr).reverse)⟩ :=
  (claim_c10_back_run_mutation ⟨some 7, some ⟨PathField.list [1, 2]⟩⟩
    ⟨PathField.list [1, 2]⟩ [1, 2] 7 RouterStep.unknownRouter rfl rfl rfl
    (by norm_num)).1

/-- Claim C7: the flashloan amount is `floor(estimatedProfit ×
backRunProfitPercentage × 10^18)` for positive estimated profit and 0
otherwise; profit 2.0 at percentage 0.5 yields exactly 10^18; and a
non-positive amount means no flashloan transaction is prepared (both by
`prepare_flashloan_transaction` and by `_prepare_flashloan`). -/
theorem claim_c7_flashloan_amount (profit? : Option ℚ) (pct : ℚ)
    (build : Except Unit Nat) (hpct : 0 ≤ pct) :
    calculate_flashloan_amount profit? pct
      = (if 0 < profit?.getD 0 then ⌊profit?.getD 0 * pct * 10 ^ 18⌋ else 0)
    ∧ calculate_flashloan_amount (some 2) (1/2) = 10 ^ 18
    ∧ (∀ a : ℤ, a ≤ 0 → prepare_flashloan_transaction a build = none)
    ∧ (calculate_flashloan_amount profit? pct ≤ 0 →
        prepare_flashloan profit? pct build = none) := by
  refine ⟨?_, ?_, ?_, ?_⟩
  · by_cases hpos : 0 < profit?.getD 0
    · rw [if_pos hpos]
      simp only [calculate_flashloan_amount]
      rw [if_pos hpos]
      unfold pyInt
      exact if_pos (mul_nonneg (mul_nonneg (le_of_lt hpos) hpct)
        (by norm_num : (0:ℚ) ≤ 10 ^ 18))
    · rw [if_neg hpos]
      simp only [calculate_flashloan_amount]
      rw [if_neg hpos]
  · norm_num [calculate_flashloan_amount, pyInt]
  · intro a ha
    simp [prepare_flashloan_transaction, ha]
  · intro hle
    simp [prepare_flashloan, hle]

/-- Witness for C7 at profit 2.0 and percentage 0.5. -/
theorem claim_c7_witness :
    calculate_flashloan_amount (some 2) (1/2) = 10 ^ 18 :=
  (claim_c7_flashloan_amount (some 2) (1/2) (Except.ok 0) (by norm_num)).2.1

/-- Claim C9: the opportunity score is monotonically non-decreasing in the
predicted price-change input with all other inputs fixed; the band boundary
at 5.0 is strict (a price change of exactly 5.0 earns the 30-point band and
5.01 the 40-point band, so the two scores differ by exactly 10); and within
the price-change metric only the single highest matching band contributes
while points from other metrics add on top: above 5 the score is exactly 40
plus the score of a zero price change. -/
theorem claim_c9_opportunity_score_bands (pc pc' v cp : ℚ)
    (mc : MarketConditions) (hp : List ℚ) :
    (pc ≤ pc' → calculate_opportunity_score pc v mc cp hp
      ≤ calculate_opportunity_score pc' v mc cp hp)
    ∧ calculate_opportunity_score 5 v mc cp hp + 10
      = calculate_opportunity_score (501/100) v mc cp hp
    ∧ (5 < pc → calculate_opportunity_score pc v mc cp hp
      = 40 + calculate_opportunity_score 0 v mc cp hp) := by
  unfold calculate_opportunity_score
  refine ⟨?_, ?_, ?_⟩
  · intro hle
    have hA : (if pc > 5 then (40:ℚ) else if pc > 3 then 30 else if pc > 1 then 20
          else if pc > 1/2 then 10 else 0)
        ≤ (if pc' > 5 then (40:ℚ) else if pc' > 3 then 30 else if pc' > 1 then 20
          else if pc' > 1/2 then 10 else 0) := by
      split_ifs <;> linarith
    linarith [hA]
  · norm_num
    ring
  · intro h5
    rw [if_pos h5]
    norm_num
    ring

/-- Witness for C9: monotonicity and band decomposition at concrete
price-change inputs. -/
theorem claim_c9_witness :
    (calculate_opportunity_score 1 0 ⟨none, none, none⟩ 0 []
      ≤ calculate_opportunity_score 2 0 ⟨none, none, none⟩ 0 [])
    ∧ calculate_opportunity_score 6 0 ⟨none, none, none⟩ 0 []
      = 40 + calculate_opportunity_score 0 0 ⟨none, none, none⟩ 0 [] :=
  ⟨(claim_c9_opportunity_score_bands 1 2 0 0 ⟨none, none, none⟩ []).1 (by norm_num),
   (claim_c9_opportunity_score_bands 6 6 0 0 ⟨none, none, none⟩ []).2.2 (by norm_num)⟩

/-- Claim C2 is refuted by the code (recorded as a code bug): at a concrete
target transaction that passes validation, with the 24h price-change lookup
succeeding, the effective `aggressive_front_run` raises an uncaught
TypeError instead of returning a boolean: the effective (shadowing)
`_calculate_risk_score` returns `None` and the tuple unpacking of that
`None` raises past the public entry point. -/
theorem claim_c2_aggressive_front_run_raises :
    aggressive_front_run
      (some ⟨some 1, some 2, some 5, some 3, none⟩)
      (Except.ok (some ⟨some 7, some ⟨PathField.list [1, 2]⟩⟩))
      (Except.ok (some 9)) 0 (Except.ok 1) (1/2) true
      = StrategyResult.raised := by
  norm_num [aggressive_front_run, validate_transaction, calculate_risk_score]

/-- Claim C8 counterexample: `volatility_front_run` on a concrete validated
transaction whose gathered current price is absent (`None`) while the other
signals are present does not return false — it proceeds on the partial data
and invokes the base front-run (score threshold configured at 0). -/
theorem claim_c8_counterexample :
    volatility_front_run
      (some ⟨some 1, some 2, some 5, some 3, none⟩)
      (Except.ok (some ⟨some 7, some ⟨PathField.list [1, 2]⟩⟩))
      (Except.ok (some 9))
      (Fetch.val (some ⟨some false, some false, some false⟩))
      (Fetch.val none)
      (Fetch.val (some [1, 2]))
      (fun _ => 0) 0 true
      = StrategyResult.ran true := by
  norm_num [volatility_front_run, validate_transaction, calculate_volatility_score,
    pyMax, pyMin, Fetch.isExc, max_def, min_def, List.cons_ne_nil]

/-- Claim C8 amended: when any gathered call raises, both strategies return
false without invoking the base strategy; `predictive_front_run` in
addition returns false when the predicted or the current price is absent
(`None`); `volatility_front_run` performs no absent-value screening (see
the counterexample), and an absent market-conditions or historical-prices
value makes it raise rather than decline. -/
theorem claim_c8_amended_gather_screening (tx? : Option Tx)
    (dec : Except Unit (Option DecodedTx)) (sym : Except Unit (Option Symbol))
    (predF priceF : Fetch (Option ℚ)) (mcF : Fetch (Option MarketConditions))
    (histF : Fetch (Option (List ℚ))) (stdFn : List ℚ → ℚ) (threshold : ℚ)
    (frontRunResult : Bool) :
    ((mcF.isExc || priceF.isExc || histF.isExc) = true →
      volatility_front_run tx? dec sym mcF priceF histF stdFn threshold frontRunResult
        = .declined)
    ∧ ((predF.isExc || priceF.isExc || mcF.isExc || histF.isExc) = true →
      predictive_front_run tx? dec sym predF priceF mcF histF stdFn threshold frontRunResult
        = .declined)
    ∧ (predF = Fetch.val none →
      predictive_front_run tx? dec sym predF priceF mcF histF stdFn threshold frontRunResult
        = .declined)
    ∧ (priceF = Fetch.val none →
      predictive_front_run tx? dec sym predF priceF mcF histF stdFn threshold frontRunResult
        = .declined) := by
  refine ⟨?_, ?_, ?_, ?_⟩
  · intro h
    simp [volatility_front_run, h]
  · intro h
    simp [predictive_front_run, h]
  · rintro rfl
    cases priceF with
    | exc => simp [predictive_front_run, Fetch.isExc]
    | val p? =>
      cases mcF with
      | exc => simp [predictive_front_run, Fetch.isExc]
      | val m? =>
        cases histF with
        | exc => simp [predictive_front_run, Fetch.isExc]
        | val h? => simp [predictive_front_run, Fetch.isExc]
  · rintro rfl
    cases predF with
    | exc => simp [predictive_front_run, Fetch.isExc]
    | val pd? =>
      cases mcF with
      | exc => simp [predictive_front_run, Fetch.isExc]
      | val m? =>
        cases histF with
        | exc => simp [predictive_front_run, Fetch.isExc]
        | val h? => cases pd? <;> simp [predictive_front_run, Fetch.isExc]

/-- Witness for the amended C8 at a concrete raised market-conditions
lookup. -/
theorem claim_c8_witness :
    volatility_front_run (some ⟨some 1, some 2, some 5, some 3, none⟩)
      (Except.ok (some ⟨some 7, some ⟨PathField.list [1, 2]⟩⟩)) (Except.ok (some 9))
      Fetch.exc (Fetch.val (some 1)) (Fetch.val (some [1, 2]))
      (fun _ => 0) 0 true = StrategyResult.declined :=
  (claim_c8_amended_gather_screening (some ⟨some 1, some 2, some 5, some 3, none⟩)
    (Except.ok (some ⟨some 7, some ⟨PathField.list [1, 2]⟩⟩)) (Except.ok (some 9))
    (Fetch.val (some 1)) (Fetch.val (some 1)) Fetch.exc (Fetch.val (some [1, 2]))
    (fun _ => 0) 0 true).1 rfl

end TxCore
